import Mathlib

/-!
Shallow embedding of the authentication core of the m1hanch/web13 repository:
`src/services/auth.py` (class Auth), `src/repository/users.py`, and the auth
routes in `src/routes/auth.py`. Machine time is threaded explicitly as a `Nat`
parameter `now` (seconds); JWT payload dictionaries are modelled as records
whose optional fields express key presence; Python exceptions (HTTPException,
KeyError, NameError, AttributeError, passlib UnknownHashError) are modelled as
an error type returned through `Except`.
-/

namespace Web13

/-- The failures a call into the auth core can surface. `http` models a raised
fastapi HTTPException with its status code and detail string; `keyError`,
`nameError` and `attributeError` model the corresponding uncaught Python
exceptions; `unknownHashError` models passlib UnknownHashError raised by
CryptContext.verify on a hash string no configured scheme identifies. -/
inductive AuthFail where
  | http (statusCode : Nat) (detail : String)
  | keyError (key : String)
  | nameError (name : String)
  | attributeError (attr : String)
  | unknownHashError
deriving DecidableEq, Repr

/-- A decoded JWT payload dictionary. Each field is `Option` because the source
reads keys with `payload['k']`, which raises KeyError when the key is absent;
`none` models an absent key. Fields mirror the claims the source writes:
`sub` (subject email), `scope`, `iat` (issued at), `exp` (expiry), all set in
`Auth.create_access_token` / `create_refresh_token` / `create_email_token`
(src/services/auth.py lines 73, 95, 173). -/
structure Payload where
  sub : Option String
  scope : Option String
  iat : Option Nat
  exp : Option Nat
deriving DecidableEq, Repr

/-- A token string. `jose.jwt.encode` is deterministic and injective on
(payload, key, algorithm), so the compact wire string is modelled by the data
it determines: a `signed` token carries its payload, signing key and algorithm,
and every string that does not parse as a JWT is `malformed`. -/
inductive Token where
  | signed (payload : Payload) (key : String) (alg : String)
  | malformed (raw : String)
deriving DecidableEq, Repr

/-- The payload of a well-formed token, `none` for an unparseable string. -/
def Token.claims : Token → Option Payload
  | .signed p _ _ => some p
  | .malformed _ => none

/-- Failures of `jose.jwt.decode`. `expiredSignature` models
ExpiredSignatureError, which subclasses JWTError, so `except JWTError` in the
source catches both constructors. -/
inductive JoseError where
  | jwtError
  | expiredSignature
deriving DecidableEq, Repr

/-- config.SECRET_KEY_JWT (src/conf/config.py line 7, default value). -/
def SECRET_KEY : String := "123456789"

/-- config.ALGORITHM (src/conf/config.py line 9). -/
def ALGORITHM : String := "HS256"

/-- Model of `jose.jwt.decode(token, key, algorithms=[alg])` evaluated at time
`now`: a string that does not parse, a signature made with a different key, or
an algorithm outside the pinned list raise JWTError; an `exp` claim strictly in
the past raises ExpiredSignatureError (jose validates `exp` with zero leeway:
expired iff exp < now); otherwise the payload is returned. -/
def jwtDecode (token : Token) (key alg : String) (now : Nat) : Except JoseError Payload :=
  match token with
  | .malformed _ => .error .jwtError
  | .signed p k a =>
    if k = key ∧ a = alg then
      match p.exp with
      | some e => if e < now then .error .expiredSignature else .ok p
      | none => .ok p
    else .error .jwtError

/-- Model of passlib CryptContext(schemes=["bcrypt"]).identify: a hash string
is recognized exactly when its first four characters are a bcrypt scheme
marker. -/
def bcryptIdentify (h : String) : Bool :=
  h.data.take 4 == "$2b$".data || h.data.take 4 == "$2a$".data || h.data.take 4 == "$2y$".data

namespace Auth

/-- Auth.get_password_hash (src/services/auth.py lines 44 to 54), delegating to
CryptContext.hash. The salted bcrypt digest is idealized as a deterministic
injective tagging of the plaintext with a bcrypt prefix, so that verification
against it can be modelled as equality. -/
def get_password_hash (password : String) : String :=
  "$2b$12$" ++ password

/-- Auth.verify_password (src/services/auth.py lines 30 to 42), delegating to
CryptContext.verify. Following passlib semantics: when no configured scheme
identifies the hash string, verify raises UnknownHashError (the source does not
catch it); otherwise it returns a boolean. -/
def verify_password (plain_password hashed_password : String) : Except AuthFail Bool :=
  if bcryptIdentify hashed_password then
    .ok (hashed_password == get_password_hash plain_password)
  else
    .error .unknownHashError

/-- Expiry computation shared by create_access_token and create_refresh_token:
`if expires_delta:` is a Python truthiness test, so `0` and `None` both select
the default TTL; otherwise expiry is now + expires_delta seconds. -/
def tokenExpiry (expires_delta : Option Nat) (defaultSeconds now : Nat) : Nat :=
  match expires_delta with
  | some d => if d = 0 then now + defaultSeconds else now + d
  | none => now + defaultSeconds

/-- Auth.create_access_token (src/services/auth.py lines 56 to 75). Every call
site passes `data = {'sub': email}`; the payload adds `exp` (default TTL 15
minutes = 900 s), `scope = "access_token"` and `iat = now`, and is signed with
SECRET_KEY and ALGORITHM. -/
def create_access_token (sub : String) (expires_delta : Option Nat) (now : Nat) : Token :=
  .signed
    { sub := some sub, scope := some "access_token", iat := some now,
      exp := some (tokenExpiry expires_delta 900 now) }
    SECRET_KEY ALGORITHM

/-- Auth.create_refresh_token (src/services/auth.py lines 77 to 97). Same shape
with `scope = "refresh_token"` and default TTL 7 days = 604800 s. -/
def create_refresh_token (sub : String) (expires_delta : Option Nat) (now : Nat) : Token :=
  .signed
    { sub := some sub, scope := some "refresh_token", iat := some now,
      exp := some (tokenExpiry expires_delta 604800 now) }
    SECRET_KEY ALGORITHM

/-- Auth.create_email_token (src/services/auth.py lines 159 to 175). Both call
sites (src/services/email.py lines 53 and 85) pass `data = {'sub': email}`; the
function adds only `iat` and `exp` (fixed TTL 1 day = 86400 s) and signs. Note:
no `scope` key is written. -/
def create_email_token (sub : String) (now : Nat) : Token :=
  .signed
    { sub := some sub, scope := none, iat := some now, exp := some (now + 86400) }
    SECRET_KEY ALGORITHM

/-- Auth.decode_refresh_token (src/services/auth.py lines 99 to 118). Any
JWTError from decode, ExpiredSignatureError included, is caught and re-raised
as HTTP 401 "Could not validate credentials"; a decoded payload whose scope is
not "refresh_token" raises HTTP 401 "Invalid scope for token" (HTTPException is
not a JWTError, so the raise inside the try block propagates); reading a
missing `scope` or `sub` key raises an uncaught KeyError. -/
def decode_refresh_token (refresh_token : Token) (now : Nat) : Except AuthFail String :=
  match jwtDecode refresh_token SECRET_KEY ALGORITHM now with
  | .error _ => .error (.http 401 "Could not validate credentials")
  | .ok payload =>
    match payload.scope with
    | none => .error (.keyError "scope")
    | some s =>
      if s = "refresh_token" then
        match payload.sub with
        | none => .error (.keyError "sub")
        | some email => .ok email
      else .error (.http 401 "Invalid scope for token")

/-- Auth.get_email_from_token (src/services/auth.py lines 177 to 194): decode,
mapping JWTError to HTTP 422 "Invalid token for email verification", then
return `payload["sub"]` with no scope inspection at all (a missing `sub` key
raises an uncaught KeyError). -/
def get_email_from_token (token : Token) (now : Nat) : Except AuthFail String :=
  match jwtDecode token SECRET_KEY ALGORITHM now with
  | .error _ => .error (.http 422 "Invalid token for email verification")
  | .ok payload =>
    match payload.sub with
    | none => .error (.keyError "sub")
    | some email => .ok email

end Auth

/-- A row of the users table (src/entity/models.py lines 24 to 32). The
`refresh_token` column stores the serialized token string; since serialization
is injective the model stores the `Token` value itself. -/
structure User where
  id : Nat
  username : String
  email : String
  password : String
  refresh_token : Option Token
  confirmed : Bool
  avatar : Option String
deriving DecidableEq, Repr

/-- One redis cache entry as written by Auth.get_current_user: the pickled user
record plus the absolute expiry instant set by `cache.expire(email, 300)`. -/
structure CacheEntry where
  value : User
  expiresAt : Nat
deriving DecidableEq, Repr

/-- The mutable state the auth core touches: the users table and the redis
identity cache keyed by email. -/
structure St where
  users : List User
  cache : List (String × CacheEntry)
deriving DecidableEq, Repr

/-- `redis.get(email)` at time `now`: the stored value if the key exists and
its TTL has not elapsed, else nothing (redis drops the key at expiry). -/
def cacheGet (key : String) (now : Nat) (cache : List (String × CacheEntry)) : Option User :=
  match cache.find? (fun e => e.fst == key) with
  | some e => if now < e.snd.expiresAt then some e.snd.value else none
  | none => none

/-- `redis.set(email, pickle.dumps(user))` followed by
`redis.expire(email, 300)`: overwrites any entry under the key. -/
def cacheSet (key : String) (value : User) (expiresAt : Nat)
    (cache : List (String × CacheEntry)) : List (String × CacheEntry) :=
  (key, { value := value, expiresAt := expiresAt }) :: cache.filter (fun e => e.fst != key)

namespace Repo

/-- repository.users.get_user_by_email (src/repository/users.py lines 9 to 21):
the single row whose unique email column matches, or None. -/
def get_user_by_email (email : String) (users : List User) : Option User :=
  users.find? (fun u => u.email == email)

/-- Committing an in-place ORM mutation of the row with the given (unique)
email. -/
def setUser (users : List User) (email : String) (f : User → User) : List User :=
  users.map (fun u => if u.email == email then f u else u)

/-- repository.users.update_token (src/repository/users.py lines 40 to 51):
sets the `refresh_token` field of the given user row and commits. The cache is
not touched. -/
def update_token (email : String) (token : Option Token) (st : St) : St :=
  { st with users := setUser st.users email (fun u => { u with refresh_token := token }) }

/-- repository.users.confirmed_email (src/repository/users.py lines 54 to 67):
fetch by email, set `confirmed = True`, commit. On an absent user the attribute
assignment on None raises AttributeError. The cache is not touched. -/
def confirmed_email (email : String) (st : St) : Except AuthFail Unit × St :=
  match get_user_by_email email st.users with
  | none => (.error (.attributeError "confirmed"), st)
  | some _ =>
    (.ok (), { st with users := setUser st.users email (fun u => { u with confirmed := true }) })

/-- repository.users.update_avatar_url (src/repository/users.py lines 70 to
84): fetch by email, set `avatar`, commit, return the row. The cache is not
touched. -/
def update_avatar_url (email : String) (avatar_url : Option String) (st : St) :
    Except AuthFail User × St :=
  match get_user_by_email email st.users with
  | none => (.error (.attributeError "avatar"), st)
  | some u =>
    (.ok { u with avatar := avatar_url },
     { st with users := setUser st.users email (fun v => { v with avatar := avatar_url }) })

/-- repository.users.update_password (src/repository/users.py lines 87 to
102): fetch by email, set `password`, commit, return the row. The cache is not
touched. -/
def update_password (email : String) (password : String) (st : St) :
    Except AuthFail User × St :=
  match get_user_by_email email st.users with
  | none => (.error (.attributeError "password"), st)
  | some u =>
    (.ok { u with password := password },
     { st with users := setUser st.users email (fun v => { v with password := password }) })

end Repo

namespace Auth

/-- Auth.get_current_user (src/services/auth.py lines 120 to 157): decode the
bearer token, mapping any JWTError to HTTP 401 "Could not validate credentials
1"; require `scope == 'access_token'` (else the same 401); reading a missing
`scope` or `sub` key raises an uncaught KeyError. Then consult the redis cache
by email; on a miss load from the store (HTTP 401 if absent) and populate the
cache with TTL 300 s; on a hit return the cached record without any store
lookup. -/
def get_current_user (token : Token) (now : Nat) (st : St) : Except AuthFail User × St :=
  match jwtDecode token SECRET_KEY ALGORITHM now with
  | .error _ => (.error (.http 401 "Could not validate credentials 1"), st)
  | .ok payload =>
    match payload.scope with
    | none => (.error (.keyError "scope"), st)
    | some s =>
      if s = "access_token" then
        match payload.sub with
        | none => (.error (.keyError "sub"), st)
        | some email =>
          match cacheGet email now st.cache with
          | some user => (.ok user, st)
          | none =>
            match Repo.get_user_by_email email st.users with
            | none => (.error (.http 401 "Could not validate credentials 1"), st)
            | some user =>
              (.ok user, { st with cache := cacheSet email user (now + 300) st.cache })
      else (.error (.http 401 "Could not validate credentials 1"), st)

end Auth

/-- The token pair returned by login and refresh_token
(src/routes/auth.py lines 59 and 85). -/
structure TokenPair where
  access_token : Token
  refresh_token : Token
  token_type : String
deriving DecidableEq, Repr

namespace Routes

/-- routes.auth.login (src/routes/auth.py lines 40 to 59): look the user up by
the submitted username (an email); absent user raises HTTP 401 "Invalid
email"; a failed password check raises HTTP 401 "Invalid password" (an
UnknownHashError from verify propagates); on success issue an access and a
refresh token for the user email and return them with token_type "bearer".
No write to the store happens: the issued refresh token is NOT persisted. -/
def login (username password : String) (now : Nat) (st : St) :
    Except AuthFail TokenPair × St :=
  match Repo.get_user_by_email username st.users with
  | none => (.error (.http 401 "Invalid email"), st)
  | some user =>
    match Auth.verify_password password user.password with
    | .error e => (.error e, st)
    | .ok false => (.error (.http 401 "Invalid password"), st)
    | .ok true =>
      (.ok { access_token := Auth.create_access_token user.email none now,
             refresh_token := Auth.create_refresh_token user.email none now,
             token_type := "bearer" }, st)

/-- routes.auth.refresh_token (src/routes/auth.py lines 62 to 85): decode the
presented refresh token to an email; fetch the user (on an absent user the
attribute read on None raises AttributeError); if the stored `refresh_token`
differs from the presented token, clear the stored token via update_token and
raise HTTP 401 "Invalid refresh token"; otherwise issue a new pair, persist the
new refresh token on the user row, and return the pair. -/
def refresh_token (token : Token) (now : Nat) (st : St) :
    Except AuthFail TokenPair × St :=
  match Auth.decode_refresh_token token now with
  | .error e => (.error e, st)
  | .ok email =>
    match Repo.get_user_by_email email st.users with
    | none => (.error (.attributeError "refresh_token"), st)
    | some user =>
      if user.refresh_token = some token then
        let newRefresh := Auth.create_refresh_token email none now
        (.ok { access_token := Auth.create_access_token email none now,
               refresh_token := newRefresh, token_type := "bearer" },
         Repo.update_token email (some newRefresh) st)
      else
        (.error (.http 401 "Invalid refresh token"), Repo.update_token email none st)

/-- routes.auth.confirmed_email (src/routes/auth.py lines 88 to 108): resolve
the email from the token via get_email_from_token; HTTP 400 "Verification
error" when no such user; a message when already confirmed; otherwise flip the
confirmed flag in the store. -/
def confirmed_email (token : Token) (now : Nat) (st : St) :
    Except AuthFail String × St :=
  match Auth.get_email_from_token token now with
  | .error e => (.error e, st)
  | .ok email =>
    match Repo.get_user_by_email email st.users with
    | none => (.error (.http 400 "Verification error"), st)
    | some user =>
      if user.confirmed then (.ok "Your email is already confirmed", st)
      else
        match Repo.confirmed_email email st with
        | (.error e, st2) => (.error e, st2)
        | (.ok _, st2) => (.ok "Email confirmed", st2)

/-- routes.auth.password_recovery (src/routes/auth.py lines 137 to 160): an
unregistered email returns the message "email not registered". For a
registered email the handler queues the reset email and then evaluates
`users_repo.update_password(user, auth_service.get_password_hash(new_password), db)`
at line 159; the name `new_password` is undefined (its assignment at line 157
is commented out), so evaluating the argument raises NameError before
update_password is called, and the store is left unchanged. -/
def password_recovery (email : String) (st : St) : Except AuthFail String × St :=
  match Repo.get_user_by_email email st.users with
  | none => (.ok "email not registered", st)
  | some _ => (.error (.nameError "new_password"), st)

end Routes

/-! Concrete demonstration data shared by several theorems. -/

/-- A demonstration user row: alice with the bcrypt hash of "correctpw", no
stored refresh token, confirmed. -/
def demoUser : User :=
  { id := 1, username := "alice", email := "a@x.com",
    password := Auth.get_password_hash "correctpw",
    refresh_token := none, confirmed := true, avatar := none }

/-- A store holding only `demoUser`, with an empty cache. -/
def demoState : St := { users := [demoUser], cache := [] }

/-- The refresh token login issues for alice at time 0. -/
def staleToken : Token := Auth.create_refresh_token "a@x.com" none 0

/-- Alice with `staleToken` persisted as her current refresh token. -/
def c2User : User := { demoUser with refresh_token := some staleToken }

/-- A store holding only `c2User`, with an empty cache. -/
def c2State : St := { users := [c2User], cache := [] }

/-- Alice not yet confirmed. -/
def c5StaleUser : User := { demoUser with confirmed := false }

/-- A store holding the unconfirmed alice, with her record already cached
under her email until time 300. -/
def c5State : St :=
  { users := [c5StaleUser],
    cache := [("a@x.com", { value := c5StaleUser, expiresAt := 300 })] }

/-- A well-formed refresh-token payload for alice. -/
def goodPayload : Payload :=
  { sub := some "a@x.com", scope := some "refresh_token", iat := some 0, exp := some 604800 }

/-! Claim theorems. -/

/-- Claim C1: the claim says the first refresh with the login-issued refresh
token succeeds and only a second use fails with a revocation error. The code
violates this: login never persists the refresh token it issues, so already
the FIRST refresh call compares the presented token against a stored value it
cannot match, clears the stored token and fails with HTTP 401 "Invalid refresh
token". This theorem evaluates the two-step scenario at a concrete fresh
principal: login at time 0 succeeds without writing to the store, and the
first refresh with the returned token at time 5 is rejected. -/
theorem c1_first_refresh_after_login_rejected :
    Routes.login "a@x.com" "correctpw" 0 demoState
      = (.ok { access_token := Auth.create_access_token "a@x.com" none 0,
               refresh_token := Auth.create_refresh_token "a@x.com" none 0,
               token_type := "bearer" }, demoState) ∧
    Routes.refresh_token (Auth.create_refresh_token "a@x.com" none 0) 5 demoState
      = (.error (.http 401 "Invalid refresh token"),
         Repo.update_token "a@x.com" none demoState) := ⟨rfl, rfl⟩

/-- Claim C2: the stored-refresh-token invariant. Violated by login: at a
concrete state where alice has the (non-null) token issued at time 0
persisted, a successful login at time 100 issues a fresh refresh token but
leaves the store untouched, so the persisted field still holds the old token,
which differs from the refresh token most recently issued. -/
theorem c2_login_breaks_stored_token_invariant :
    (Routes.login "a@x.com" "correctpw" 100 c2State).1
      = .ok { access_token := Auth.create_access_token "a@x.com" none 100,
              refresh_token := Auth.create_refresh_token "a@x.com" none 100,
              token_type := "bearer" } ∧
    (Routes.login "a@x.com" "correctpw" 100 c2State).2 = c2State ∧
    Repo.get_user_by_email "a@x.com" (Routes.login "a@x.com" "correctpw" 100 c2State).2.users
      = some c2User ∧
    some (Auth.create_refresh_token "a@x.com" none 100) ≠ c2User.refresh_token := by
  refine ⟨rfl, rfl, rfl, ?_⟩
  decide

/-- Claim C3 counterexample: at a concrete store, a login for an unknown email
and a login with a wrong password for a known email produce DIFFERENT errors,
both HTTP 401 but with detail "Invalid email" versus "Invalid password", so
the two failure cases are not indistinguishable as claimed. -/
theorem c3_counterexample :
    (Routes.login "ghost@x.com" "whatever" 0 demoState).1
      = .error (.http 401 "Invalid email") ∧
    (Routes.login "a@x.com" "wrongpw" 0 demoState).1
      = .error (.http 401 "Invalid password") ∧
    (AuthFail.http 401 "Invalid email") ≠ (AuthFail.http 401 "Invalid password") := by
  refine ⟨rfl, rfl, ?_⟩
  decide

/-- Claim C3 amended: an unknown email fails with HTTP 401 detail "Invalid
email" while a known email whose password check returns false fails with HTTP
401 detail "Invalid password"; both carry status 401, but the detail strings
differ, so the two cases are distinguishable to the caller. -/
theorem c3_login_failures_distinguishable
    (e1 e2 pw1 pw2 : String) (now : Nat) (st : St) (u : User)
    (h1 : Repo.get_user_by_email e1 st.users = none)
    (h2 : Repo.get_user_by_email e2 st.users = some u)
    (hv : Auth.verify_password pw2 u.password = .ok false) :
    (Routes.login e1 pw1 now st).1 = .error (.http 401 "Invalid email") ∧
    (Routes.login e2 pw2 now st).1 = .error (.http 401 "Invalid password") ∧
    (Routes.login e1 pw1 now st).1 ≠ (Routes.login e2 pw2 now st).1 := by
  have ha : (Routes.login e1 pw1 now st).1 = .error (.http 401 "Invalid email") := by
    simp [Routes.login, h1]
  have hb : (Routes.login e2 pw2 now st).1 = .error (.http 401 "Invalid password") := by
    simp [Routes.login, h2, hv]
  refine ⟨ha, hb, ?_⟩
  rw [ha, hb]
  simp only [ne_eq, Except.error.injEq, AuthFail.http.injEq]
  decide

/-- Claim C3 witness: the amended theorem applied at the concrete store
holding only alice, with a ghost email and a wrong password. -/
theorem c3_witness :
    (Routes.login "ghost@x.com" "whatever" 0 demoState).1
      = .error (.http 401 "Invalid email") ∧
    (Routes.login "a@x.com" "wrongpw" 0 demoState).1
      = .error (.http 401 "Invalid password") :=
  ⟨(c3_login_failures_distinguishable "ghost@x.com" "a@x.com" "whatever" "wrongpw" 0 demoState
      demoUser rfl rfl rfl).1,
   (c3_login_failures_distinguishable "ghost@x.com" "a@x.com" "whatever" "wrongpw" 0 demoState
      demoUser rfl rfl rfl).2.1⟩

/-- Claim C4 counterexample: a wrong-signature token, an expired token and a
malformed token all produce the SAME error from decode_refresh_token, namely
HTTP 401 "Could not validate credentials", so the three failure kinds are not
observably different to the caller. -/
theorem c4_counterexample :
    Auth.decode_refresh_token (.signed goodPayload "other-key" ALGORITHM) 0
      = .error (.http 401 "Could not validate credentials") ∧
    Auth.decode_refresh_token (.signed goodPayload SECRET_KEY ALGORITHM) 604801
      = .error (.http 401 "Could not validate credentials") ∧
    Auth.decode_refresh_token (.malformed "not-a-jwt") 0
      = .error (.http 401 "Could not validate credentials") := ⟨rfl, rfl, rfl⟩

/-- Claim C4 amended: decode_refresh_token maps EVERY jwt-layer decode failure
(invalid signature, expiry, unparseable token alike) to the single error HTTP
401 "Could not validate credentials"; the failure kinds are not distinguished.
Only the wrong-scope case, which is not a decode failure, gets a distinct
error. -/
theorem c4_decode_failures_collapse (t : Token) (now : Nat) (e : JoseError)
    (h : jwtDecode t SECRET_KEY ALGORITHM now = .error e) :
    Auth.decode_refresh_token t now
      = .error (.http 401 "Could not validate credentials") := by
  unfold Auth.decode_refresh_token
  rw [h]

/-- Claim C4 witness: the amended theorem applied to a concrete malformed
token. -/
theorem c4_witness :
    Auth.decode_refresh_token (.malformed "junk") 3
      = .error (.http 401 "Could not validate credentials") :=
  c4_decode_failures_collapse (.malformed "junk") 3 .jwtError rfl

/-- Claim C5 counterexample: at a concrete state whose cache holds the
principal record, the mutating operation confirmed_email updates the store but
leaves the cache entry untouched, and a subsequent get_current_user with a
valid access token within the TTL serves the pre-mutation record (confirmed
still false) straight from the cache. -/
theorem c5_counterexample :
    (Repo.confirmed_email "a@x.com" c5State).2.cache = c5State.cache ∧
    Repo.get_user_by_email "a@x.com" (Repo.confirmed_email "a@x.com" c5State).2.users
      = some { c5StaleUser with confirmed := true } ∧
    (Auth.get_current_user (Auth.create_access_token "a@x.com" none 0) 10
        (Repo.confirmed_email "a@x.com" c5State).2).1
      = .ok c5StaleUser ∧
    c5StaleUser.confirmed = false := ⟨rfl, rfl, rfl, rfl⟩

/-- Claim C5 amended: none of the principal-mutating operations (email
confirmation, avatar change, password change, refresh-token change) touches
the identity cache: each leaves the cache component of the state exactly as it
was, so an unexpired cache entry keeps serving the pre-mutation record for up
to its TTL. -/
theorem c5_mutations_leave_cache_untouched
    (email pw : String) (av : Option String) (tok : Option Token) (st : St) :
    (Repo.confirmed_email email st).2.cache = st.cache ∧
    (Repo.update_avatar_url email av st).2.cache = st.cache ∧
    (Repo.update_password email pw st).2.cache = st.cache ∧
    (Repo.update_token email tok st).cache = st.cache := by
  refine ⟨?_, ?_, ?_, rfl⟩ <;>
    cases h : Repo.get_user_by_email email st.users <;>
      simp [Repo.confirmed_email, Repo.update_avatar_url, Repo.update_password, h]

/-- Claim C6 counterexample: the email token issued at time 0 for a concrete
address carries NO scope claim, contradicting the claim that every issued
token carries a scope claim; and presenting it as an access token or as a
refresh token does not produce a clean scope rejection: reading the missing
scope key raises an uncaught KeyError. -/
theorem c6_counterexample :
    (Auth.create_email_token "a@x.com" 0).claims
      = some { sub := some "a@x.com", scope := none, iat := some 0, exp := some 86400 } ∧
    (Auth.get_current_user (Auth.create_email_token "a@x.com" 0) 5 demoState).1
      = .error (.keyError "scope") ∧
    Auth.decode_refresh_token (Auth.create_email_token "a@x.com" 0) 5
      = .error (.keyError "scope") := ⟨rfl, rfl, rfl⟩

/-- Claim C6 amended: access and refresh tokens carry subject, scope,
issued_at and expires_at claims, but an email token carries only subject,
issued_at and expires_at with NO scope claim; presenting an unexpired email
token to the access-token consumer (get_current_user) or to the refresh-token
consumer (decode_refresh_token) always fails, but with an uncaught KeyError on
the missing scope key rather than with a scope-rejection error. -/
theorem c6_email_token_unusable_as_access_or_refresh
    (email : String) (issued now : Nat) (st : St) (d : Option Nat)
    (h : now ≤ issued + 86400) :
    (Auth.create_access_token email d issued).claims
      = some { sub := some email, scope := some "access_token", iat := some issued,
               exp := some (Auth.tokenExpiry d 900 issued) } ∧
    (Auth.create_refresh_token email d issued).claims
      = some { sub := some email, scope := some "refresh_token", iat := some issued,
               exp := some (Auth.tokenExpiry d 604800 issued) } ∧
    (Auth.create_email_token email issued).claims
      = some { sub := some email, scope := none, iat := some issued,
               exp := some (issued + 86400) } ∧
    (Auth.get_current_user (Auth.create_email_token email issued) now st).1
      = .error (.keyError "scope") ∧
    Auth.decode_refresh_token (Auth.create_email_token email issued) now
      = .error (.keyError "scope") := by
  refine ⟨rfl, rfl, rfl, ?_, ?_⟩ <;>
    simp [Auth.get_current_user, Auth.decode_refresh_token, Auth.create_email_token,
          jwtDecode, Nat.not_lt.mpr h]

/-- Claim C6 witness: the amended theorem applied to a concrete unexpired
email token. -/
theorem c6_witness :
    (Auth.get_current_user (Auth.create_email_token "a@x.com" 0) 7 demoState).1
      = .error (.keyError "scope") ∧
    Auth.decode_refresh_token (Auth.create_email_token "a@x.com" 0) 7
      = .error (.keyError "scope") :=
  ⟨(c6_email_token_unusable_as_access_or_refresh "a@x.com" 0 7 demoState none
      (by decide)).2.2.2.1,
   (c6_email_token_unusable_as_access_or_refresh "a@x.com" 0 7 demoState none
      (by decide)).2.2.2.2⟩

/-- Claim C7 counterexample: on the hash string "nothash", which no configured
scheme identifies, verify_password propagates passlib UnknownHashError instead
of returning false. -/
theorem c7_counterexample :
    Auth.verify_password "pw" "nothash" = .error .unknownHashError ∧
    Auth.verify_password "pw" "nothash" ≠ .ok false :=
  ⟨rfl, fun h => Except.noConfusion h⟩

/-- Claim C7 amended: verify_password returns a boolean whenever passlib
identifies the hash string as a bcrypt hash; on any hash string that no
configured scheme identifies it raises UnknownHashError instead of returning
false. -/
theorem c7_verify_totality_split (plain hashed : String) :
    (bcryptIdentify hashed = true →
      Auth.verify_password plain hashed
        = .ok (hashed == Auth.get_password_hash plain)) ∧
    (bcryptIdentify hashed = false →
      Auth.verify_password plain hashed = .error .unknownHashError) := by
  constructor <;> intro h <;> simp [Auth.verify_password, h]

/-- Claim C7 witness: the amended theorem applied to the bcrypt hash of
"correctpw" and to the unrecognizable hash string "zzz". -/
theorem c7_witness :
    Auth.verify_password "correctpw" (Auth.get_password_hash "correctpw") = .ok true ∧
    Auth.verify_password "pw" "zzz" = .error .unknownHashError :=
  ⟨((c7_verify_totality_split "correctpw" (Auth.get_password_hash "correctpw")).1
      (by decide)).trans (congrArg Except.ok (by decide)),
   (c7_verify_totality_split "pw" "zzz").2 (by decide)⟩

/-- Claim C8 counterexample: for the refresh token issued at time 0 with TTL
10, decoding at time 11 fails, but NOT with a distinguishable Expired error:
the error is HTTP 401 "Could not validate credentials", the very same result
produced for a malformed token, so expiry is not distinguished. -/
theorem c8_counterexample :
    Auth.decode_refresh_token (Auth.create_refresh_token "a@x.com" (some 10) 0) 11
      = .error (.http 401 "Could not validate credentials") ∧
    Auth.decode_refresh_token (Auth.create_refresh_token "a@x.com" (some 10) 0) 11
      = Auth.decode_refresh_token (.malformed "garbage") 11 := ⟨rfl, rfl⟩

/-- Claim C8 amended: for TTL t > 0, a refresh token encoded at time now for a
subject carries that subject, scope "refresh_token" and expiry now + t, and
decodes to its subject at any time up to now + t; at any later time decoding
fails, with the generic HTTP 401 "Could not validate credentials" shared by
all jwt-layer failures rather than a distinct Expired error. -/
theorem c8_round_trip_and_expiry (sub : String) (t now now2 : Nat) (ht : 0 < t) :
    (Auth.create_refresh_token sub (some t) now).claims
      = some { sub := some sub, scope := some "refresh_token", iat := some now,
               exp := some (now + t) } ∧
    (now2 ≤ now + t →
      Auth.decode_refresh_token (Auth.create_refresh_token sub (some t) now) now2
        = .ok sub) ∧
    (now + t < now2 →
      Auth.decode_refresh_token (Auth.create_refresh_token sub (some t) now) now2
        = .error (.http 401 "Could not validate credentials")) := by
  have htz : ¬ t = 0 := Nat.pos_iff_ne_zero.mp ht
  have hte : Auth.tokenExpiry (some t) 604800 now = now + t := by
    simp [Auth.tokenExpiry, htz]
  refine ⟨?_, ?_, ?_⟩
  · simp [Auth.create_refresh_token, Token.claims, hte]
  · intro hle
    simp [Auth.decode_refresh_token, Auth.create_refresh_token, jwtDecode, hte,
          Nat.not_lt.mpr hle]
  · intro hlt
    simp [Auth.decode_refresh_token, Auth.create_refresh_token, jwtDecode, hte, hlt]

/-- Claim C8 witness: the amended theorem applied at subject alice, TTL 10,
issue time 0, evaluated once inside and once outside the validity window. -/
theorem c8_witness :
    Auth.decode_refresh_token (Auth.create_refresh_token "a@x.com" (some 10) 0) 5
      = .ok "a@x.com" ∧
    Auth.decode_refresh_token (Auth.create_refresh_token "a@x.com" (some 10) 0) 11
      = .error (.http 401 "Could not validate credentials") :=
  ⟨(c8_round_trip_and_expiry "a@x.com" 10 0 5 (by decide)).2.1 (by decide),
   (c8_round_trip_and_expiry "a@x.com" 10 0 11 (by decide)).2.2 (by decide)⟩

/-- Claim C9 (implicit): get_email_from_token performs no scope check: ANY
token signed with the configured key and pinned algorithm that is unexpired
and carries a subject claim, whatever its scope (access and refresh scopes
included), yields its subject email instead of failing. -/
theorem c9_email_consumer_ignores_scope (p : Payload) (email : String) (now : Nat)
    (hsub : p.sub = some email)
    (hexp : ∀ e, p.exp = some e → ¬ e < now) :
    Auth.get_email_from_token (.signed p SECRET_KEY ALGORITHM) now = .ok email := by
  cases hp : p.exp with
  | none => simp [Auth.get_email_from_token, jwtDecode, hp, hsub]
  | some e => simp [Auth.get_email_from_token, jwtDecode, hp, hsub, hexp e hp]

/-- Claim C9 witness: a concrete access token (scope "access_token") issued at
time 0 is accepted by the email-token consumer at time 5. -/
theorem c9_witness :
    Auth.get_email_from_token (Auth.create_access_token "a@x.com" none 0) 5
      = .ok "a@x.com" := by
  have h := c9_email_consumer_ignores_scope
    { sub := some "a@x.com", scope := some "access_token", iat := some 0, exp := some 900 }
    "a@x.com" 5 rfl (by intro e he; injection he with h2; omega)
  simpa [Auth.create_access_token, Auth.tokenExpiry] using h

/-- Claim C10 (implicit): password recovery never completes: for every state
and registered email, the handler evaluates the undefined name new_password,
raising NameError before update_password runs, and the state (in particular
the stored password hash) is unchanged. -/
theorem c10_password_recovery_never_completes (email : String) (st : St) (u : User)
    (h : Repo.get_user_by_email email st.users = some u) :
    (Routes.password_recovery email st).1 = .error (.nameError "new_password") ∧
    (Routes.password_recovery email st).2 = st := by
  simp [Routes.password_recovery, h]

/-- Claim C10 witness: the theorem applied at the concrete store holding
alice. -/
theorem c10_witness :
    (Routes.password_recovery "a@x.com" demoState).1
      = .error (.nameError "new_password") ∧
    (Routes.password_recovery "a@x.com" demoState).2 = demoState :=
  c10_password_recovery_never_completes "a@x.com" demoState demoUser rfl

end Web13
